import Mathlib

/-!
# CourseraSkipper: verification of the natural-language spec against the code

Shallow embedding of the TypeScript sources of the CourseraSkipper browser
extension.  Network calls are modelled by explicit environment/response
parameters; thrown exceptions by `Option`/error fields; the single-threaded
event loop's interleaving of concurrent per-item handlers by an explicit
completion order quantified over all permutations of the dispatched group.

Sources embedded here:
- `src/extension/utils/storage.ts` (`detectItemType`, `getModuleData`)
- `src/extension/utils/coursera-api.ts` (`getModuleData`, `markReadingComplete`)
- `src/feats/watcher/watcher.ts` (`watchItem`, `startItem`, `updateProgress`,
  `endItem`) with `DELAYS.AFTER_PROGRESS_UPDATE = 3000` from the watcher config
- `src/feats/gradedlti` (`GradedLtiHandler.markItemAsPassed`)
- `src/extension/background/service-worker.ts` (`handleStartSolver`,
  `handleStartModuleSkip`, `handleStartAllModulesSkip`, `processModuleItems`,
  `processAllModules`, `updateTaskProgress`)
-/

namespace CourseraSkipper

/-! ## Strings: JavaScript `String.prototype.includes` -/

/-- `startsWithList s p` holds when list `s` starts with list `p`. -/
def startsWithList : List Char → List Char → Bool
  | _, [] => true
  | [], _ :: _ => false
  | c :: s, p :: ps => c = p && startsWithList s ps

/-- Substring search on character lists: does `s` contain `pat` contiguously?
Models JavaScript `s.includes(pat)`. -/
def strContainsAux : List Char → List Char → Bool
  | [], pat => pat.isEmpty
  | c :: s, pat => startsWithList (c :: s) pat || strContainsAux s pat

/-- `strContains s pat` models the TypeScript `s.includes(pat)`. -/
def strContains (s pat : String) : Bool :=
  strContainsAux s.toList pat.toList

/-- JavaScript `s.toLowerCase()`; the platform type-names and resource paths
are ASCII, where it coincides with per-character ASCII lowercasing. -/
def strToLower (s : String) : String :=
  String.mk (s.toList.map Char.toLower)

/-! ## Item classification

`src/extension/utils/storage.ts` lines 497-537 (`detectItemType`) and the
inline classifier of `getModuleData` in `src/extension/utils/coursera-api.ts`
lines 322-359. -/

inductive ItemType where
  | video
  | reading
  | quiz
  | programming
  | peerReview
  | unknown
  deriving DecidableEq, Repr

/-- `detectItemType` from `src/extension/utils/storage.ts` lines 497-537:
exact lower-cased type-name taxonomy, then substring matches, then the
resource-path fallback. -/
def detectItemType (typeName resourcePath : String) : ItemType :=
  let type := strToLower typeName
  if type = "lecture" then .video
  else if type = "supplement" then .reading
  else if type = "staffgraded" then .quiz
  else if type = "gradedlti" then .programming
  else if type = "ungradedassignment" then .quiz
  else if strContains type "exam" || strContains type "quiz" then .quiz
  else if strContains type "programming" then .programming
  else if strContains type "peer" then .peerReview
  else
    let path := strToLower resourcePath
    if strContains path "/lecture/" then .video
    else if strContains path "/supplement/" then .reading
    else if strContains path "/exam/" || strContains path "/quiz/" then .quiz
    else if strContains path "/programming/" then .programming
    else if strContains path "/peer/" then .peerReview
    else .unknown

/-- The inline classifier of `getModuleData` in
`src/extension/utils/coursera-api.ts` lines 327-348: substring matching on the
lower-cased type-name only, with no exact-taxonomy entries and no
resource-path fallback. -/
def courseraApiDetectItemType (typeName : String) : ItemType :=
  let t := strToLower typeName
  if strContains t "exam" || strContains t "quiz" then .quiz
  else if strContains t "lecture" || strContains t "video" then .video
  else if strContains t "supplement" || strContains t "reading" then .reading
  else if strContains t "programming" then .programming
  else if strContains t "peer" then .peerReview
  else .unknown

/-- Modelled from the spec (for the refinement comparison of claim C6, not
from the source): lower-case the type-name and map it by the fixed taxonomy
(`lecture` to video, `supplement` to reading, `staffGraded` to quiz,
`gradedLti` to programming, `ungradedAssignment` to quiz, containing
exam/quiz to quiz, containing programming to programming, containing peer to
peer-review), and when the type-name is absent or unrecognized fall back to
matching the resource path against the same categories. -/
def specClassify (typeName resourcePath : String) : ItemType :=
  let t := strToLower typeName
  if t = "lecture" then .video
  else if t = "supplement" then .reading
  else if t = "staffgraded" then .quiz
  else if t = "gradedlti" then .programming
  else if t = "ungradedassignment" then .quiz
  else if strContains t "exam" || strContains t "quiz" then .quiz
  else if strContains t "programming" then .programming
  else if strContains t "peer" then .peerReview
  else
    let p := strToLower resourcePath
    if strContains p "/lecture/" then .video
    else if strContains p "/supplement/" then .reading
    else if strContains p "/exam/" || strContains p "/quiz/" then .quiz
    else if strContains p "/programming/" then .programming
    else if strContains p "/peer/" then .peerReview
    else .unknown

/-! ## Module data -/

/-- `ModuleItemSummary` from `src/extension/utils/coursera-api.ts` lines
231-243. -/
structure ModuleItemSummary where
  id : String
  name : String
  slug : String
  type : ItemType
  timeCommitment : Nat
  deriving DecidableEq, Repr

/-- The `counts` record of `ModuleData`. -/
structure TypeCounts where
  quiz : Nat
  video : Nat
  reading : Nat
  programming : Nat
  peerReview : Nat
  total : Nat
  deriving DecidableEq, Repr

/-- `ModuleData` from `src/extension/utils/coursera-api.ts` lines 245-258. -/
structure ModuleData where
  moduleId : String
  name : String
  slug : String
  items : List ModuleItemSummary
  counts : TypeCounts
  deriving DecidableEq, Repr

/-! ### `getModuleData` from `src/extension/utils/storage.ts` (lines 542-679)

The raw shapes mirror what the guided-course-progress endpoint returns:
weeks, each with modules, each with items carrying an optional
`contentSummary.typeName` and `resourcePath`. -/

/-- A raw item of the guided-course-progress response
(`item.contentSummary?.typeName`, `item.resourcePath`, `item.id`,
`item.trackId`, `item.name`, `item.slug`, `item.timeCommitment`). -/
structure GuidedRawItem where
  id : Option String
  trackId : Option String
  name : Option String
  slug : Option String
  typeName : Option String
  resourcePath : Option String
  timeCommitment : Option Nat
  deriving DecidableEq, Repr

/-- A raw module of one week of the guided-course-progress response. -/
structure GuidedRawModule where
  name : Option String
  id : Option String
  items : List GuidedRawItem
  deriving DecidableEq, Repr

/-- One week of the guided-course-progress response. -/
structure GuidedWeek where
  modules : List GuidedRawModule
  deriving DecidableEq, Repr

/-- The network environment of `storage.ts getModuleData`: the resolved user
id, the resolved course id, and the `weeks` array of the guided progress
document.  `none` models the corresponding fetch failing or returning a
missing/empty/non-array field (each of which the source turns into an early
`null` return). -/
structure StorageEnv where
  userId : Option String
  courseId : Option String
  weeks : Option (List GuidedWeek)
  deriving DecidableEq, Repr

/-- Classification and aggregation of one raw item
(`storage.ts` lines 638-659): counts updated per detected type, `total`
always incremented, summary pushed with `item.id || item.trackId` etc. -/
def guidedSummarize (it : GuidedRawItem) : ModuleItemSummary :=
  let typeName := it.typeName.getD ""
  let resourcePath := it.resourcePath.getD ""
  { id := (it.id.getD (it.trackId.getD ""))
    name := it.name.getD "Untitled"
    slug := it.slug.getD ""
    type := detectItemType typeName resourcePath
    timeCommitment := it.timeCommitment.getD 0 }

/-- Add one classified item to the running counts
(`storage.ts` lines 643-650). -/
def bumpCounts (c : TypeCounts) (t : ItemType) : TypeCounts :=
  let c :=
    match t with
    | .quiz => { c with quiz := c.quiz + 1 }
    | .video => { c with video := c.video + 1 }
    | .reading => { c with reading := c.reading + 1 }
    | .programming => { c with programming := c.programming + 1 }
    | .peerReview => { c with peerReview := c.peerReview + 1 }
    | .unknown => c
  { c with total := c.total + 1 }

/-- `getModuleData` from `src/extension/utils/storage.ts` lines 542-679.
Every failure path of the source (`null` user id, `null` course id, missing
progress data, missing weeks, out-of-bounds week index, week with no
modules) returns `none`; the source wraps the body in try/catch returning
`null`, so the function never escapes an exception. -/
def storageGetModuleData (env : StorageEnv) (moduleNumber : Int) :
    Option ModuleData :=
  match env.userId with
  | none => none
  | some _ =>
    match env.courseId with
    | none => none
    | some _ =>
      match env.weeks with
      | none => none
      | some weeks =>
        -- module numbers are 1-indexed, the array is 0-indexed
        let weekIndex := moduleNumber - 1
        if h : weekIndex < 0 ∨ weekIndex ≥ (weeks.length : Int) then none
        else
          have hlt : weekIndex.toNat < weeks.length := by
            push_neg at h
            omega
          let week := weeks.get ⟨weekIndex.toNat, hlt⟩
          let modules := week.modules
          if modules.length = 0 then none
          else
            let step := fun (acc : String × String × List ModuleItemSummary × TypeCounts)
                (m : GuidedRawModule) =>
              let moduleName := m.name.getD acc.1
              let moduleId := m.id.getD acc.2.1
              let classified := m.items.map guidedSummarize
              let counts := classified.foldl (fun c it => bumpCounts c it.type) acc.2.2.2
              (moduleName, moduleId, acc.2.2.1 ++ classified, counts)
            let init : String × String × List ModuleItemSummary × TypeCounts :=
              ("Week " ++ toString moduleNumber, "", [], ⟨0, 0, 0, 0, 0, 0⟩)
            let res := modules.foldl step init
            some
              { moduleId := res.2.1
                name := res.1
                slug := ""
                items := res.2.2.1
                counts := res.2.2.2 }

/-! ### `getModuleData` from `src/extension/utils/coursera-api.ts`
(lines 263-372) -/

/-- A linked module of the on-demand course-materials response. -/
structure ApiModule where
  id : String
  name : String
  slug : String
  lessonIds : Option (List String)
  deriving DecidableEq, Repr

/-- A linked lesson of the on-demand course-materials response. -/
structure ApiLesson where
  id : String
  elementIds : Option (List String)
  deriving DecidableEq, Repr

/-- A linked item of the on-demand course-materials response. -/
structure ApiItem where
  id : String
  name : Option String
  originalName : Option String
  slug : String
  typeName : Option String
  timeCommitment : Option Nat
  deriving DecidableEq, Repr

/-- The `linked` part of the course-materials document fetched by
`getCourseData`; `none` models a failed fetch or a missing `linked` field. -/
structure ApiCourseData where
  modules : List ApiModule
  lessons : List ApiLesson
  items : List ApiItem
  deriving DecidableEq, Repr

/-- JavaScript `Set` insertion: append when not already present, so that
iteration order is insertion order. -/
def jsSetAdd (l : List String) (x : String) : List String :=
  if x ∈ l then l else l ++ [x]

/-- Collect the item ids reachable from the module's lessons
(`coursera-api.ts` lines 302-309): element ids of the form `itemId@version`
keep only the prefix before the `@`, deduplicated into a `Set`. -/
def collectModuleItemIds (moduleLessons : List ApiLesson) : List String :=
  moduleLessons.foldl
    (fun acc lesson =>
      (lesson.elementIds.getD []).foldl
        (fun acc2 elementId =>
          jsSetAdd acc2 (((elementId.splitOn "@").headD "")))
        acc)
    []

/-- `getModuleData` from `src/extension/utils/coursera-api.ts` lines 263-372.
The JavaScript index `modules[moduleNumber - 1]` yields `undefined` for any
index outside `[0, length)`, and the source returns `null` then; the whole
body is wrapped in try/catch returning `null`. -/
def courseraApiGetModuleData (courseData : Option ApiCourseData)
    (moduleNumber : Int) : Option ModuleData :=
  match courseData with
  | none => none
  | some data =>
    let modules := data.modules
    let lessons := data.lessons
    let items := data.items
    let idx := moduleNumber - 1
    if h : idx < 0 ∨ idx ≥ (modules.length : Int) then none
    else
      have hlt : idx.toNat < modules.length := by
        push_neg at h
        omega
      let module := modules.get ⟨idx.toNat, hlt⟩
      let moduleLessons := lessons.filter
        (fun lesson => (module.lessonIds.getD []).contains lesson.id)
      let moduleItemIds := collectModuleItemIds moduleLessons
      let step := fun (acc : List ModuleItemSummary × TypeCounts) (itemId : String) =>
        match items.find? (fun i => i.id = itemId) with
        | none => acc
        | some item =>
          let typeName := (item.typeName.getD "")
          let type := courseraApiDetectItemType typeName
          let summary : ModuleItemSummary :=
            { id := item.id
              name := item.name.getD (item.originalName.getD "Untitled")
              slug := item.slug
              type := type
              timeCommitment := item.timeCommitment.getD 0 }
          (acc.1 ++ [summary], bumpCounts acc.2 type)
      let res := moduleItemIds.foldl step ([], ⟨0, 0, 0, 0, 0, 0⟩)
      some
        { moduleId := module.id
          name := module.name
          slug := module.slug
          items := res.1
          counts := res.2 }

/-! ## `markReadingComplete` from `src/extension/utils/coursera-api.ts`
(lines 191-219)

The source posts the supplement-completion request, reads the body text, and
returns `text.includes("Completed")` without ever consulting
`response.status`; any thrown exception (network failure, unreadable body) is
caught and turned into `false`. -/

/-- An HTTP response as the reading handler sees it: a status code and the
body text. -/
structure HttpResponse where
  status : Nat
  body : String
  deriving DecidableEq, Repr

/-- `markReadingComplete`: `none` models the fetch (or body read) throwing;
otherwise the result is exactly the substring test on the body. -/
def markReadingComplete (resp : Option HttpResponse) : Bool :=
  match resp with
  | none => false
  | some r => strContains r.body "Completed"

/-! ## The video watcher, `src/feats/watcher/watcher.ts`

`watchItem` (lines 42-58) short-circuits to the end event when
`metadata.can_skip`, and otherwise runs `startItem` (play, 200 expected),
`updateProgress` (PUT with `viewedUpTo = item.timeCommitment`, 204 expected,
then a 3000 ms delay), and `endItem` (200 expected).  Each step throws on an
unexpected status, which aborts the remaining steps. -/

/-- `DELAYS.AFTER_PROGRESS_UPDATE` from the watcher configuration module
(3000 ms). -/
def DELAYS_AFTER_PROGRESS_UPDATE : Nat := 3000

/-- `ItemMetadata` as used by the watcher (`can_skip`, `tracking_id`). -/
structure ItemMetadata where
  can_skip : Bool
  tracking_id : String
  deriving DecidableEq, Repr

/-- `VideoItem` as used by the watcher. -/
structure VideoItem where
  id : String
  name : String
  timeCommitment : Nat
  deriving DecidableEq, Repr

/-- The statuses the platform returns for the three watcher calls. -/
structure VideoNet where
  playStatus : Nat
  progressStatus : Nat
  endStatus : Nat
  deriving DecidableEq, Repr

/-- Observable actions of one watcher run: the three network calls (the
progress call carrying its `viewedUpTo` payload) and the settle delay. -/
inductive WatchEvent where
  | playCall
  | progressCall (viewedUpTo : Nat)
  | wait (ms : Nat)
  | endCall
  deriving DecidableEq, Repr

/-- The distinct throw sites of the watcher, each carrying the offending
status (`Failed to start video. Status: ...` and so on). -/
inductive WatchError where
  | startFailed (status : Nat)
  | progressFailed (status : Nat)
  | endFailed (status : Nat)
  deriving DecidableEq, Repr

/-- One watcher step result: the events it performed, and the error it threw
if any. -/
abbrev StepResult := List WatchEvent × Option WatchError

/-- Sequencing of watcher steps: a thrown error aborts the continuation. -/
def seqStep (a : StepResult) (b : Unit → StepResult) : StepResult :=
  match a with
  | (evs, none) =>
    let r := b ()
    (evs ++ r.1, r.2)
  | (evs, some e) => (evs, some e)

/-- `Watcher.startItem` (lines 63-89): POST the play event; throw unless the
status is 200. -/
def startItem (net : VideoNet) : StepResult :=
  ([WatchEvent.playCall],
    if net.playStatus = 200 then none else some (WatchError.startFailed net.playStatus))

/-- `Watcher.endItem` (lines 95-124): POST the end event; throw unless the
status is 200. -/
def endItem (net : VideoNet) : StepResult :=
  ([WatchEvent.endCall],
    if net.endStatus = 200 then none else some (WatchError.endFailed net.endStatus))

/-- `Watcher.updateProgress` (lines 129-169): PUT the progress update with
`viewedUpTo = item.timeCommitment`; throw unless the status is 204; then wait
`DELAYS.AFTER_PROGRESS_UPDATE` (3000 ms). -/
def updateProgress (item : VideoItem) (net : VideoNet) : StepResult :=
  if net.progressStatus = 204 then
    ([WatchEvent.progressCall item.timeCommitment,
      WatchEvent.wait DELAYS_AFTER_PROGRESS_UPDATE], none)
  else
    ([WatchEvent.progressCall item.timeCommitment],
      some (WatchError.progressFailed net.progressStatus))

/-- `Watcher.watchItem` (lines 42-58): skip-eligible videos go straight to
the end event; otherwise play, progress (with the settle delay), end. -/
def watchItem (metadata : ItemMetadata) (item : VideoItem) (net : VideoNet) :
    StepResult :=
  if metadata.can_skip then
    endItem net
  else
    seqStep (startItem net) (fun _ =>
      seqStep (updateProgress item net) (fun _ =>
        endItem net))

/-! ## The graded LTI handler, `src/feats/gradedlti` (src/unnamed/part_006)

`markItemAsPassed` (lines 94-205) fetches the current course grade document,
locates or creates the per-item grade, sets it to passed with grade 1.0,
recomputes the overall grade as passed/total, and builds the full PUT
payload.  Grades are modelled as rationals; the four unrelated linked
collections are kept abstract (type parameters) since the source only ever
passes them through. -/

/-- `ItemOutcome` from `src/feats/gradedlti/types.ts`. -/
structure ItemOutcome where
  isPassed : Bool
  grade : ℚ
  deriving DecidableEq, Repr

/-- `CourseViewItemGrade` from `src/feats/gradedlti/types.ts`. -/
structure CourseViewItemGrade where
  itemId : String
  overallOutcome : ItemOutcome
  id : String
  userId : Int
  courseId : String
  deriving DecidableEq, Repr

/-- The `linked` part of the course grade document.  `none` on a collection
models the field being absent from the fetched JSON (the source substitutes
`[]` through `|| []`). -/
structure GradesLinked (α β γ δ : Type) where
  itemGrades : Option (List CourseViewItemGrade)
  gradedAssignmentGroupGrades : Option (List α)
  passableItemGroupGrades : Option (List β)
  trackAttainments : Option (List γ)
  itemOutcomeOverrides : Option (List δ)

/-- One element of `CourseViewGrades.elements`. -/
structure GradeElement where
  viewId : String
  verifiedGrade : ℚ
  overallGrade : ℚ
  id : String
  userId : Int
  passingState : String
  deriving DecidableEq, Repr

/-- `CourseViewGrades` from `src/feats/gradedlti/types.ts` (the PUT payload
requires the complete document).  The `linked` collections other than the
item grades are type parameters. -/
structure CourseViewGrades (α β γ δ : Type) where
  elements : List GradeElement
  linked : GradesLinked α β γ δ

/-- The fresh item grade the handler creates when the target item has no
entry yet (`part_006` lines 110-122). -/
def newItemGrade (courseId itemId : String) (userIdNum : Int) :
    CourseViewItemGrade :=
  { itemId := itemId
    overallOutcome := { isPassed := true, grade := 1 }
    id := toString userIdNum ++ "~" ++ courseId ++ "~" ++ itemId
    userId := userIdNum
    courseId := courseId }

/-- In-place update of the first grade entry whose `itemId` matches
(JavaScript `find` returns the first match and the source mutates it). -/
def updateFirstItemGrade (itemId : String) :
    List CourseViewItemGrade → List CourseViewItemGrade
  | [] => []
  | g :: rest =>
    if g.itemId = itemId then
      { g with overallOutcome := { isPassed := true, grade := 1 } } :: rest
    else
      g :: updateFirstItemGrade itemId rest

/-- The merged item-grade list after `markItemAsPassed`: update the first
matching entry, or push a new one at the end. -/
def mergedItemGrades (courseId itemId : String) (userIdNum : Int)
    (itemGrades : List CourseViewItemGrade) : List CourseViewItemGrade :=
  match itemGrades.find? (fun ig => ig.itemId = itemId) with
  | some _ => updateFirstItemGrade itemId itemGrades
  | none => itemGrades ++ [newItemGrade courseId itemId userIdNum]

/-- The PUT payload built by `GradedLtiHandler.markItemAsPassed`
(`part_006` lines 96-168) from the fetched grade document. -/
def markItemAsPassedPayload {α β γ δ : Type} (courseId itemId : String)
    (userIdNum : Int) (currentGrades : CourseViewGrades α β γ δ) :
    CourseViewGrades α β γ δ :=
  let itemGrades0 := currentGrades.linked.itemGrades.getD []
  let itemGrades := mergedItemGrades courseId itemId userIdNum itemGrades0
  let totalItems := itemGrades.length
  let passedItems := (itemGrades.filter (fun ig => ig.overallOutcome.isPassed)).length
  let overallGrade : ℚ := if totalItems > 0 then (passedItems : ℚ) / (totalItems : ℚ) else 0
  { elements :=
      [{ viewId := courseId
         verifiedGrade := overallGrade
         overallGrade := overallGrade
         id := toString userIdNum ++ "~" ++ courseId
         userId := userIdNum
         passingState := if passedItems = totalItems then "passed" else "notPassed" }]
    linked :=
      { itemGrades := some itemGrades
        gradedAssignmentGroupGrades :=
          some (currentGrades.linked.gradedAssignmentGroupGrades.getD [])
        passableItemGroupGrades :=
          some (currentGrades.linked.passableItemGroupGrades.getD [])
        trackAttainments :=
          some (currentGrades.linked.trackAttainments.getD [])
        itemOutcomeOverrides :=
          some (currentGrades.linked.itemOutcomeOverrides.getD []) } }

/-! ## The batch processor, `src/extension/background/service-worker.ts`

`processModuleItems` (lines 741-917) and `processAllModules` (lines 597-739).
Each dispatched item's promise wraps its handler in try/catch, so a failure
only skips that item's counter increment; `Promise.allSettled` joins the
group.  The single-threaded event loop serializes the counter increments, so
the observable effect of the concurrent group is a fold over some completion
order of the group; the theorems quantify over every permutation of the
group.  Per-item success or failure of the underlying handler is abstracted
by an `itemOk` oracle (it stands for the network outcomes of that item's
calls). -/

/-- `ActiveTask.status`. -/
inductive TaskStatus where
  | running
  | paused
  | completed
  | error
  deriving DecidableEq, Repr

/-- `Math.round((num / den) * 100)` for the non-negative ratios the batch
processor computes: `jsRoundPct c total` is `round(c / total * 100)`
(floor of the value plus one half, matching `Math.round` on non-negative
numbers). -/
def jsRoundPct (c total : Nat) : Nat :=
  (c * 100 * 2 + total) / (total * 2)

/-- A progress update recorded through `updateTaskProgress`
(lines 1028-1054): the progress value and the message. -/
structure ProgressUpdate where
  progress : Nat
  message : String
  deriving DecidableEq, Repr

/-- The observable outcome of one batch run: every progress update in
emission order, the terminal status, the terminal message, and the final
completed counter. -/
structure BatchRun where
  updates : List ProgressUpdate
  finalStatus : TaskStatus
  finalMessage : String
  completedCount : Nat
  deriving DecidableEq, Repr

/-- Mid-batch state: the shared completed counter and the updates emitted so
far. -/
structure BatchState where
  completedCount : Nat
  updates : List ProgressUpdate
  deriving DecidableEq, Repr

/-- One concurrent group of `processModuleItems`, folded over its completion
order: a successful item increments the shared counter and emits
`round(completedCount / totalItems * 100)` with a
`Completed {label}: {name} ({c}/{total})` message; a failed item is caught
and only logged. -/
def processGroup (label : String) (totalItems : Nat)
    (itemOk : ModuleItemSummary → Bool) :
    List ModuleItemSummary → BatchState → BatchState
  | [], st => st
  | item :: rest, st =>
    if itemOk item then
      let c := st.completedCount + 1
      processGroup label totalItems itemOk rest
        { completedCount := c
          updates := st.updates ++
            [{ progress := jsRoundPct c totalItems
               message := "Completed " ++ label ++ ": " ++ item.name ++
                 " (" ++ toString c ++ "/" ++ toString totalItems ++ ")" }] }
    else
      processGroup label totalItems itemOk rest st

/-- A concurrent group of `processAllModules` (lines 634-689): successes
increment the shared counter but emit no per-item progress update. -/
def processGroupSilent (itemOk : ModuleItemSummary → Bool)
    (order : List ModuleItemSummary) (completed : Nat) : Nat :=
  completed + (order.filter itemOk).length

/-- One `if (group.length > 0) { announce; fan out; await allSettled }`
block of `processModuleItems`: when the type-filtered group is non-empty,
emit the phase announcement and run the concurrent group over its completion
order. -/
def runGroupStage (label : String) (totalItems : Nat)
    (itemOk : ModuleItemSummary → Bool) (group order : List ModuleItemSummary)
    (phaseUpdate : ProgressUpdate) (st : BatchState) : BatchState :=
  if group.length > 0 then
    processGroup label totalItems itemOk order
      { st with updates := st.updates ++ [phaseUpdate] }
  else st

/-- `BackgroundService.processModuleItems` (lines 741-917).  `userId = none`
models `getUserId()` resolving to `null` (the only pre-flight failure inside
the function); `vOrder`, `rOrder`, `pOrder` are the completion orders of the
three concurrent groups (permutations of the type-filtered item lists). -/
def processModuleItems (userId : Option String) (md : ModuleData)
    (itemOk : ModuleItemSummary → Bool)
    (vOrder rOrder pOrder : List ModuleItemSummary) : BatchRun :=
  match userId with
  | none =>
    { updates := []
      finalStatus := .error
      finalMessage := "Could not get user ID"
      completedCount := 0 }
  | some _ =>
    let items := md.items
    let videos := items.filter (fun i => i.type = .video)
    let readings := items.filter (fun i => i.type = .reading)
    let programming := items.filter (fun i => i.type = .programming)
    let totalItems := items.length
    let st0 : BatchState := { completedCount := 0, updates := [] }
    let st1 := runGroupStage "video" totalItems itemOk videos vOrder
      { progress := 10
        message := "Processing " ++ toString videos.length ++
          " videos concurrently..." } st0
    let st2 := runGroupStage "reading" totalItems itemOk readings rOrder
      { progress := jsRoundPct st1.completedCount totalItems
        message := "Processing " ++ toString readings.length ++
          " readings concurrently..." } st1
    let st3 := runGroupStage "programming" totalItems itemOk programming pOrder
      { progress := jsRoundPct st2.completedCount totalItems
        message := "Processing " ++ toString programming.length ++
          " programming assignments concurrently..." } st2
    { updates := st3.updates
      finalStatus := .completed
      finalMessage := "Module completed! Processed " ++
        toString st3.completedCount ++ "/" ++ toString items.length ++ " items"
      completedCount := st3.completedCount }

/-- One module iteration of `processAllModules` (lines 617-696): announce the
module, run the three silent concurrent groups, announce completion.  The
counter is shared across modules. -/
def processOneModule (itemOk : ModuleItemSummary → Bool) (totalItems : Nat)
    (moduleCount : Nat) (idx : Nat) (md : ModuleData) (st : BatchState) :
    BatchState :=
  let st :=
    { st with
      updates := st.updates ++
        [({ progress := jsRoundPct st.completedCount totalItems
            message := "Processing Module " ++ toString (idx + 1) ++ "/" ++
              toString moduleCount ++ ": " ++ md.name } : ProgressUpdate)] }
  let videos := md.items.filter (fun i => i.type = .video)
  let readings := md.items.filter (fun i => i.type = .reading)
  let programming := md.items.filter (fun i => i.type = .programming)
  let c1 := if videos.length > 0 then processGroupSilent itemOk videos st.completedCount
            else st.completedCount
  let c2 := if readings.length > 0 then processGroupSilent itemOk readings c1 else c1
  let c3 := if programming.length > 0 then processGroupSilent itemOk programming c2
            else c2
  { completedCount := c3
    updates := st.updates ++
      [{ progress := jsRoundPct c3 totalItems
         message := "Completed Module " ++ toString (idx + 1) ++ "/" ++
           toString moduleCount }] }

/-- Fold of `processOneModule` over the module list with its running index. -/
def processModulesFrom (itemOk : ModuleItemSummary → Bool) (totalItems : Nat)
    (moduleCount : Nat) : Nat → List ModuleData → BatchState → BatchState
  | _, [], st => st
  | idx, md :: rest, st =>
    processModulesFrom itemOk totalItems moduleCount (idx + 1) rest
      (processOneModule itemOk totalItems moduleCount idx md st)

/-- `BackgroundService.processAllModules` (lines 597-739): pre-flight user-id
resolution, then each module sequentially, then the terminal completion
status.  `totalItems` is the task's `moduleData.totalItems` (the sum of the
modules' `counts.total`, computed by `handleStartAllModulesSkip`).  The
groups within a module are silent (no per-item progress updates), so their
completion order does not affect the observable run and they are folded in
list order. -/
def processAllModules (userId : Option String) (allModules : List ModuleData)
    (totalItems : Nat) (itemOk : ModuleItemSummary → Bool) : BatchRun :=
  match userId with
  | none =>
    { updates := []
      finalStatus := .error
      finalMessage := "Could not get user ID"
      completedCount := 0 }
  | some _ =>
    let stF := processModulesFrom itemOk totalItems allModules.length 0 allModules
      { completedCount := 0, updates := [] }
    { updates := stF.updates
      finalStatus := .completed
      finalMessage := "All modules completed! Processed " ++
        toString stF.completedCount ++ "/" ++ toString totalItems ++ " items"
      completedCount := stF.completedCount }

/-! ## Task admission, `src/extension/background/service-worker.ts`

The `activeTasks` map (a JavaScript `Map`, keyed by task key) and the three
batch-start handlers.  `handleStartSolver` (lines 105-185) and
`handleStartAllModulesSkip` (lines 518-595) check `activeTasks.has(taskKey)`
and reject with an already-running error; `handleStartModuleSkip`
(lines 450-516) performs no such check and `set`s the task unconditionally. -/

/-- `ActiveTask` (lines 39-54), restricted to the fields the admission and
progress logic reads (`tabId` and `startTime` are environment values with no
bearing on admission). -/
structure ActiveTask where
  type : String
  courseId : String
  itemId : String
  status : TaskStatus
  progress : Nat
  message : String
  moduleDataTotalItems : Option Nat
  deriving DecidableEq, Repr

/-- The `activeTasks` map, as an association list with JavaScript `Map`
semantics (`set` replaces the existing binding of a key). -/
abbrev TaskMap := List (String × ActiveTask)

/-- `Map.has`. -/
def taskMapHas (m : TaskMap) (key : String) : Bool :=
  m.any (fun kv => kv.1 = key)

/-- `Map.set`: replace the binding when the key is present, append
otherwise. -/
def taskMapSet (m : TaskMap) (key : String) (t : ActiveTask) : TaskMap :=
  match m with
  | [] => [(key, t)]
  | kv :: rest =>
    if kv.1 = key then (key, t) :: rest
    else kv :: taskMapSet rest key t

/-- `Map.get`. -/
def taskMapGet (m : TaskMap) (key : String) : Option ActiveTask :=
  (m.find? (fun kv => kv.1 = key)).map (fun kv => kv.2)

/-- A `MessageResponse` (success flag, error string, returned task key). -/
structure StartResponse where
  success : Bool
  errorMsg : Option String
  taskKey : Option String
  deriving DecidableEq, Repr

/-- `handleStartSolver` (lines 105-185): reject when the key is already in
`activeTasks`; then the settings/session pre-flight checks (modelled by the
two booleans); then create and store the task. -/
def handleStartSolver (m : TaskMap) (courseId itemId : String)
    (apiKeyConfigured authenticated : Bool) : TaskMap × StartResponse :=
  let taskKey := courseId ++ "-" ++ itemId
  if taskMapHas m taskKey then
    (m, { success := false
          errorMsg := some "Solver already running for this item"
          taskKey := none })
  else if !apiKeyConfigured then
    (m, { success := false
          errorMsg := some "API key not configured. Please set it in the options page."
          taskKey := none })
  else if !authenticated then
    (m, { success := false
          errorMsg := some "Not authenticated. Please log in to Coursera."
          taskKey := none })
  else
    let task : ActiveTask :=
      { type := "solver", courseId := courseId, itemId := itemId
        status := .running, progress := 0, message := "Starting solver..."
        moduleDataTotalItems := none }
    (taskMapSet m taskKey task,
      { success := true, errorMsg := none, taskKey := some taskKey })

/-- `handleStartModuleSkip` (lines 450-516): fetch the module data (a `null`
result throws, caught into a failure response), then create and store the
task under `module-{courseSlug}-{moduleNumber}` — with no already-running
check. -/
def handleStartModuleSkip (m : TaskMap) (courseId courseSlug : String)
    (moduleNumber : Int) (moduleDataResult : Option ModuleData) :
    TaskMap × StartResponse :=
  match moduleDataResult with
  | none =>
    (m, { success := false
          errorMsg := some "Could not fetch module data"
          taskKey := none })
  | some md =>
    let taskKey := "module-" ++ courseSlug ++ "-" ++ toString moduleNumber
    let task : ActiveTask :=
      { type := "module", courseId := courseId
        itemId := "module-" ++ toString moduleNumber
        status := .running, progress := 0
        message := "Starting module skip..."
        moduleDataTotalItems := some md.items.length }
    (taskMapSet m taskKey task,
      { success := true, errorMsg := none, taskKey := some taskKey })

/-- `handleStartAllModulesSkip` (lines 518-595): validate the parameters
(`allModules = none` models a missing parameter, thrown and caught into a
failure), reject when `all-modules-{courseSlug}` is already in
`activeTasks`, then create and store the task with
`totalItems = sum of counts.total`. -/
def handleStartAllModulesSkip (m : TaskMap) (courseId courseSlug : String)
    (allModules : Option (List ModuleData)) : TaskMap × StartResponse :=
  match allModules with
  | none =>
    (m, { success := false
          errorMsg := some "Missing required parameters"
          taskKey := none })
  | some mods =>
    let taskKey := "all-modules-" ++ courseSlug
    if taskMapHas m taskKey then
      (m, { success := false
            errorMsg := some "All modules skip already running"
            taskKey := none })
    else
      let totalItems := mods.foldl (fun sum md => sum + md.counts.total) 0
      let task : ActiveTask :=
        { type := "module", courseId := courseId, itemId := "all-modules"
          status := .running, progress := 0
          message := "Starting all modules skip..."
          moduleDataTotalItems := some totalItems }
      (taskMapSet m taskKey task,
        { success := true, errorMsg := none, taskKey := some taskKey })

/-! ## Supporting lemmas -/

/-- `startsWithList` is correct: it holds exactly when the pattern is a
prefix of the list. -/
theorem startsWithList_iff (p : List Char) :
    ∀ s : List Char, startsWithList s p = true ↔ ∃ rest, s = p ++ rest := by
  induction p with
  | nil =>
    intro s
    simp [startsWithList]
  | cons q ps ih =>
    intro s
    cases s with
    | nil =>
      simp [startsWithList]
    | cons c s =>
      simp only [startsWithList, Bool.and_eq_true, decide_eq_true_eq, ih,
        List.cons_append, List.cons.injEq]
      constructor
      · rintro ⟨hq, rest, hrest⟩
        exact ⟨rest, hq, hrest⟩
      · rintro ⟨rest, hq, hrest⟩
        exact ⟨hq, rest, hrest⟩

/-- `strContainsAux` is correct: it holds exactly when the pattern occurs
contiguously in the list. -/
theorem strContainsAux_iff (pat : List Char) :
    ∀ s : List Char, strContainsAux s pat = true ↔
      ∃ pre post, s = pre ++ pat ++ post := by
  intro s
  induction s with
  | nil =>
    simp only [strContainsAux, List.isEmpty_iff]
    constructor
    · intro h
      exact ⟨[], [], by simp [h]⟩
    · rintro ⟨pre, post, hp⟩
      rcases List.append_eq_nil.mp (List.append_eq_nil.mp hp.symm).1 with ⟨-, h2⟩
      exact h2
  | cons c s ih =>
    simp only [strContainsAux, Bool.or_eq_true, startsWithList_iff, ih]
    constructor
    · rintro (⟨rest, hr⟩ | ⟨pre, post, hp⟩)
      · exact ⟨[], rest, by simp [hr]⟩
      · exact ⟨c :: pre, post, by simp [hp]⟩
    · rintro ⟨pre, post, hp⟩
      cases pre with
      | nil =>
        exact Or.inl ⟨post, by simpa using hp⟩
      | cons p pre =>
        right
        simp only [List.cons_append, List.cons.injEq] at hp
        exact ⟨pre, post, hp.2⟩

/-- The completed counter after one concurrent group is the old counter plus
the number of successful items of the group, whatever the completion
order. -/
theorem processGroup_count (label : String) (T : Nat)
    (ok : ModuleItemSummary → Bool) :
    ∀ (order : List ModuleItemSummary) (st : BatchState),
      (processGroup label T ok order st).completedCount =
        st.completedCount + (order.filter ok).length := by
  intro order
  induction order with
  | nil => intro st; rfl
  | cons i rest ih =>
    intro st
    by_cases h : ok i
    · simp [processGroup, h, ih, List.filter_cons]
      omega
    · simp [processGroup, h, ih, List.filter_cons]

/-- Counter effect of one stage: when the completion order has no successes
outside an empty group, the stage adds exactly the order's success count. -/
theorem runGroupStage_count (label : String) (T : Nat)
    (ok : ModuleItemSummary → Bool) (group order : List ModuleItemSummary)
    (pu : ProgressUpdate) (st : BatchState)
    (hO : group.length = 0 → (order.filter ok).length = 0) :
    (runGroupStage label T ok group order pu st).completedCount =
      st.completedCount + (order.filter ok).length := by
  unfold runGroupStage
  split_ifs with h
  · rw [processGroup_count]
  · rw [hO (by omega)]
    omega

/-! ### Progress-value chains (for the monotonicity claim) -/

/-- Last element of a list of naturals, with a default. -/
def lastValD (d : Nat) : List Nat → Nat
  | [] => d
  | x :: xs => lastValD x xs

/-- `chainLeFrom prev l`: `l` is non-decreasing and its head is at least
`prev`. -/
def chainLeFrom (prev : Nat) : List Nat → Bool
  | [] => true
  | x :: xs => decide (prev ≤ x) && chainLeFrom x xs

/-- A list of naturals is non-decreasing. -/
def nonDecreasingNat : List Nat → Bool
  | [] => true
  | x :: xs => chainLeFrom x xs

theorem lastValD_append (m : List Nat) :
    ∀ (l : List Nat) (p : Nat), lastValD p (l ++ m) = lastValD (lastValD p l) m := by
  intro l
  induction l with
  | nil => intro p; rfl
  | cons x xs ih => intro p; simpa [lastValD] using ih x

theorem chainLeFrom_append (m : List Nat) :
    ∀ (l : List Nat) (p : Nat),
      chainLeFrom p (l ++ m) = (chainLeFrom p l && chainLeFrom (lastValD p l) m) := by
  intro l
  induction l with
  | nil => intro p; simp [chainLeFrom, lastValD]
  | cons x xs ih =>
    intro p
    simp [chainLeFrom, lastValD, ih x, Bool.and_assoc]

theorem chainLeFrom_of_le {p q : Nat} (hqp : q ≤ p) {l : List Nat}
    (h : chainLeFrom p l = true) : chainLeFrom q l = true := by
  cases l with
  | nil => rfl
  | cons x xs =>
    simp only [chainLeFrom, Bool.and_eq_true, decide_eq_true_eq] at h ⊢
    exact ⟨le_trans hqp h.1, h.2⟩

theorem nonDecreasingNat_of_chainZero {l : List Nat}
    (h : chainLeFrom 0 l = true) : nonDecreasingNat l = true := by
  cases l with
  | nil => rfl
  | cons x xs =>
    simp only [chainLeFrom, Bool.and_eq_true] at h
    exact h.2

/-- `jsRoundPct` is monotone in the completed count. -/
theorem jsRoundPct_mono (T : Nat) {a b : Nat} (h : a ≤ b) :
    jsRoundPct a T ≤ jsRoundPct b T := by
  unfold jsRoundPct
  exact Nat.div_le_div_right (by omega)

/-- A concurrent group only appends updates; the appended part depends only
on the incoming counter. -/
theorem processGroup_updates_append (label : String) (T : Nat)
    (ok : ModuleItemSummary → Bool) :
    ∀ (order : List ModuleItemSummary) (st : BatchState),
      (processGroup label T ok order st).updates =
        st.updates ++
          (processGroup label T ok order
            { completedCount := st.completedCount, updates := [] }).updates := by
  intro order
  induction order with
  | nil => intro st; simp [processGroup]
  | cons i rest ih =>
    intro st
    by_cases h : ok i
    · simp only [processGroup, h, if_true]
      conv_lhs => rw [ih]
      conv_rhs => rw [ih]
      simp
    · simp only [processGroup, h, Bool.false_eq_true, if_false]
      exact ih st

/-- The progress values a concurrent group emits continue any chain whose
last value is at most the percentage of the incoming counter, and the new
last value is at most the percentage of the outgoing counter. -/
theorem processGroup_chain (label : String) (T : Nat)
    (ok : ModuleItemSummary → Bool) :
    ∀ (order : List ModuleItemSummary) (st : BatchState) (prev : Nat),
      chainLeFrom prev (st.updates.map ProgressUpdate.progress) = true →
      lastValD prev (st.updates.map ProgressUpdate.progress) ≤
        jsRoundPct st.completedCount T →
      chainLeFrom prev
        ((processGroup label T ok order st).updates.map ProgressUpdate.progress) =
        true ∧
      lastValD prev
        ((processGroup label T ok order st).updates.map ProgressUpdate.progress) ≤
        jsRoundPct (processGroup label T ok order st).completedCount T := by
  intro order
  induction order with
  | nil =>
    intro st prev h1 h2
    exact ⟨h1, h2⟩
  | cons i rest ih =>
    intro st prev h1 h2
    by_cases h : ok i
    · simp only [processGroup, h, if_true]
      apply ih
      · rw [List.map_append, chainLeFrom_append]
        simp only [Bool.and_eq_true]
        refine ⟨h1, ?_⟩
        simp only [List.map_cons, List.map_nil, chainLeFrom, Bool.and_true,
          decide_eq_true_eq]
        exact le_trans h2 (jsRoundPct_mono T (Nat.le_succ _))
      · rw [List.map_append, lastValD_append]
        simp [lastValD]
    · simp only [processGroup, h, Bool.false_eq_true, if_false]
      exact ih st prev h1 h2

/-- A concurrent group is insensitive to an update prepended to the incoming
state: the counter agrees and the emitted updates are shifted past it. -/
theorem processGroup_shift (label : String) (T : Nat)
    (ok : ModuleItemSummary → Bool) :
    ∀ (order : List ModuleItemSummary) (x : ProgressUpdate) (st st' : BatchState),
      st.completedCount = st'.completedCount →
      st.updates = x :: st'.updates →
      (processGroup label T ok order st).completedCount =
        (processGroup label T ok order st').completedCount ∧
      (processGroup label T ok order st).updates =
        x :: (processGroup label T ok order st').updates := by
  intro order
  induction order with
  | nil =>
    intro x st st' hc hu
    exact ⟨hc, hu⟩
  | cons i rest ih =>
    intro x st st' hc hu
    by_cases h : ok i
    · simp only [processGroup, h, if_true]
      apply ih
      · simp [hc]
      · rw [hu, hc]
        simp
    · simp only [processGroup, h, Bool.false_eq_true, if_false]
      exact ih x st st' hc hu

/-- Same shift property for a whole stage. -/
theorem runGroupStage_shift (label : String) (T : Nat)
    (ok : ModuleItemSummary → Bool) (group order : List ModuleItemSummary)
    (pu x : ProgressUpdate) (st st' : BatchState)
    (hc : st.completedCount = st'.completedCount)
    (hu : st.updates = x :: st'.updates) :
    (runGroupStage label T ok group order pu st).completedCount =
      (runGroupStage label T ok group order pu st').completedCount ∧
    (runGroupStage label T ok group order pu st).updates =
      x :: (runGroupStage label T ok group order pu st').updates := by
  unfold runGroupStage
  split_ifs with h
  · apply processGroup_shift
    · simp [hc]
    · rw [hu]
      simp
  · exact ⟨hc, hu⟩

/-- A stage whose announcement carries the percentage of the incoming
counter (the reading and programming stages) extends any progress chain and
keeps the last value below the percentage of the outgoing counter. -/
theorem runGroupStage_chain (label : String) (T : Nat)
    (ok : ModuleItemSummary → Bool) (group order : List ModuleItemSummary)
    (msg : String) (st : BatchState) (prev : Nat)
    (h1 : chainLeFrom prev (st.updates.map ProgressUpdate.progress) = true)
    (h2 : lastValD prev (st.updates.map ProgressUpdate.progress) ≤
      jsRoundPct st.completedCount T) :
    chainLeFrom prev
      ((runGroupStage label T ok group order
        { progress := jsRoundPct st.completedCount T, message := msg }
        st).updates.map ProgressUpdate.progress) = true ∧
    lastValD prev
      ((runGroupStage label T ok group order
        { progress := jsRoundPct st.completedCount T, message := msg }
        st).updates.map ProgressUpdate.progress) ≤
      jsRoundPct
        (runGroupStage label T ok group order
          { progress := jsRoundPct st.completedCount T, message := msg }
          st).completedCount T := by
  unfold runGroupStage
  split_ifs with h
  · apply processGroup_chain
    · rw [List.map_append, chainLeFrom_append]
      simp only [Bool.and_eq_true]
      refine ⟨h1, ?_⟩
      simp only [List.map_cons, List.map_nil, chainLeFrom, Bool.and_true,
        decide_eq_true_eq]
      exact h2
    · rw [List.map_append, lastValD_append]
      simp [lastValD]
  · exact ⟨h1, h2⟩

/-- The three stages of a module batch, chained: every progress value after
the (optional) leading fixed video announcement is non-decreasing. -/
theorem stages_chain (T : Nat) (ok : ModuleItemSummary → Bool)
    (vids read prog vO rO pO : List ModuleItemSummary) (m1 m2 m3 : String)
    (st1 st2 st3 : BatchState)
    (h1 : st1 = runGroupStage "video" T ok vids vO
      { progress := 10, message := m1 } { completedCount := 0, updates := [] })
    (h2 : st2 = runGroupStage "reading" T ok read rO
      { progress := jsRoundPct st1.completedCount T, message := m2 } st1)
    (h3 : st3 = runGroupStage "programming" T ok prog pO
      { progress := jsRoundPct st2.completedCount T, message := m3 } st2) :
    nonDecreasingNat ((st3.updates.map ProgressUpdate.progress).drop
      (if 0 < vids.length then 1 else 0)) = true := by
  by_cases hv : 0 < vids.length
  · -- the video stage runs: its fixed announcement of 10 is the head
    rw [if_pos hv]
    have hst1 : st1 = processGroup "video" T ok vO
        { completedCount := 0,
          updates := [{ progress := 10, message := m1 }] } := by
      rw [h1]
      simp [runGroupStage, hv]
    -- drop the announcement via the shift lemmas
    have hshift1 := processGroup_shift "video" T ok vO
      ({ progress := 10, message := m1 })
      { completedCount := 0, updates := [{ progress := 10, message := m1 }] }
      { completedCount := 0, updates := [] } rfl rfl
    set s1 := processGroup "video" T ok vO
      { completedCount := 0, updates := [] } with hs1
    have hc1 : st1.completedCount = s1.completedCount := by
      rw [hst1]; exact hshift1.1
    have hu1 : st1.updates = { progress := 10, message := m1 } :: s1.updates := by
      rw [hst1]; exact hshift1.2
    have hchain1 := processGroup_chain "video" T ok vO
      { completedCount := 0, updates := [] } 0 rfl (Nat.zero_le _)
    -- stage 2 on the shifted state
    have hpu2 : ({ progress := jsRoundPct st1.completedCount T, message := m2 } :
        ProgressUpdate) =
        { progress := jsRoundPct s1.completedCount T, message := m2 } := by
      rw [hc1]
    set s2 := runGroupStage "reading" T ok read rO
      { progress := jsRoundPct s1.completedCount T, message := m2 } s1 with hs2
    have hshift2 := runGroupStage_shift "reading" T ok read rO
      ({ progress := jsRoundPct s1.completedCount T, message := m2 })
      ({ progress := 10, message := m1 }) st1 s1 hc1 hu1
    have hc2 : st2.completedCount = s2.completedCount := by
      rw [h2, hpu2]; exact hshift2.1
    have hu2 : st2.updates = { progress := 10, message := m1 } :: s2.updates := by
      rw [h2, hpu2]; exact hshift2.2
    have hchain2 := runGroupStage_chain "reading" T ok read rO m2 s1 0
      hchain1.1 hchain1.2
    -- stage 3 on the shifted state
    have hpu3 : ({ progress := jsRoundPct st2.completedCount T, message := m3 } :
        ProgressUpdate) =
        { progress := jsRoundPct s2.completedCount T, message := m3 } := by
      rw [hc2]
    set s3 := runGroupStage "programming" T ok prog pO
      { progress := jsRoundPct s2.completedCount T, message := m3 } s2 with hs3
    have hshift3 := runGroupStage_shift "programming" T ok prog pO
      ({ progress := jsRoundPct s2.completedCount T, message := m3 })
      ({ progress := 10, message := m1 }) st2 s2 hc2 hu2
    have hu3 : st3.updates = { progress := 10, message := m1 } :: s3.updates := by
      rw [h3, hpu3]; exact hshift3.2
    have hchain3 := runGroupStage_chain "programming" T ok prog pO m3 s2 0
      hchain2.1 hchain2.2
    rw [hu3]
    simp only [List.map_cons, List.drop_one, List.tail_cons]
    exact nonDecreasingNat_of_chainZero hchain3.1
  · -- no video stage: every update is ratio-based and the chain is complete
    rw [if_neg hv]
    have hst1 : st1 = { completedCount := 0, updates := [] } := by
      rw [h1]
      unfold runGroupStage
      rw [if_neg hv]
    subst hst1
    have hchain2 := runGroupStage_chain "reading" T ok read rO m2
      { completedCount := 0, updates := [] } 0 rfl (Nat.zero_le _)
    rw [← h2] at hchain2
    have hchain3 := runGroupStage_chain "programming" T ok prog pO m3 st2 0
      hchain2.1 hchain2.2
    rw [← h3] at hchain3
    simpa using nonDecreasingNat_of_chainZero hchain3.1

/-- Number of dispatched items (videos, readings, programming) of a module
whose handler succeeds. -/
def moduleDispatchSuccesses (ok : ModuleItemSummary → Bool)
    (md : ModuleData) : Nat :=
  (((md.items.filter (fun i => i.type = ItemType.video)) ++
    (md.items.filter (fun i => i.type = ItemType.reading)) ++
    (md.items.filter (fun i => i.type = ItemType.programming))).filter ok).length

/-- A guarded silent group always contributes exactly its success count: an
empty group is skipped but would contribute nothing anyway. -/
theorem silentStage_eq (ok : ModuleItemSummary → Bool)
    (l : List ModuleItemSummary) (c : Nat) :
    (if l.length > 0 then processGroupSilent ok l c else c) =
      c + (l.filter ok).length := by
  split_ifs with h
  · rfl
  · have hl : l = [] := List.length_eq_zero.mp (by omega)
    simp [hl]

theorem processOneModule_count (ok : ModuleItemSummary → Bool)
    (T n idx : Nat) (md : ModuleData) (st : BatchState) :
    (processOneModule ok T n idx md st).completedCount =
      st.completedCount + moduleDispatchSuccesses ok md := by
  unfold processOneModule
  dsimp only
  rw [silentStage_eq, silentStage_eq, silentStage_eq]
  simp only [moduleDispatchSuccesses, List.filter_append, List.length_append]
  omega

theorem processModulesFrom_count (ok : ModuleItemSummary → Bool) (T n : Nat) :
    ∀ (mods : List ModuleData) (idx : Nat) (st : BatchState),
      (processModulesFrom ok T n idx mods st).completedCount =
        st.completedCount + (mods.map (moduleDispatchSuccesses ok)).sum := by
  intro mods
  induction mods with
  | nil => intro idx st; simp [processModulesFrom]
  | cons md rest ih =>
    intro idx st
    simp only [processModulesFrom]
    rw [ih, processOneModule_count]
    simp only [List.map_cons, List.sum_cons]
    omega

/-! ### Task-map lemmas -/

theorem taskMapSet_keys_subset (k : String) (t : ActiveTask) :
    ∀ (m : TaskMap) (x : String), x ∈ (taskMapSet m k t).map Prod.fst →
      x = k ∨ x ∈ m.map Prod.fst := by
  intro m
  induction m with
  | nil =>
    intro x hx
    simp [taskMapSet] at hx
    exact Or.inl hx
  | cons kv rest ih =>
    intro x hx
    by_cases h : kv.1 = k
    · simp only [taskMapSet, h, if_true, List.map_cons, List.mem_cons] at hx
      rcases hx with hx | hx
      · exact Or.inl hx
      · exact Or.inr (by simp [hx])
    · simp only [taskMapSet, h, if_false, List.map_cons, List.mem_cons] at hx
      rcases hx with hx | hx
      · exact Or.inr (by simp [hx])
      · rcases ih x hx with hx | hx
        · exact Or.inl hx
        · exact Or.inr (by simp [hx])

/-- `Map.set` keeps the keys duplicate-free: the task map holds at most one
entry per key. -/
theorem taskMapSet_keys_nodup (k : String) (t : ActiveTask) :
    ∀ (m : TaskMap), (m.map Prod.fst).Nodup →
      ((taskMapSet m k t).map Prod.fst).Nodup := by
  intro m
  induction m with
  | nil =>
    intro _
    simp [taskMapSet]
  | cons kv rest ih =>
    intro h
    simp only [List.map_cons, List.nodup_cons] at h
    by_cases hk : kv.1 = k
    · simp only [taskMapSet, hk, if_true, List.map_cons, List.nodup_cons]
      exact ⟨by rw [← hk]; exact h.1, h.2⟩
    · simp only [taskMapSet, hk, if_false, List.map_cons, List.nodup_cons]
      refine ⟨fun hmem => ?_, ih h.2⟩
      rcases taskMapSet_keys_subset k t rest kv.1 hmem with he | he
      · exact hk he
      · exact h.1 he

/-! ## Claim theorems -/

/-- C9: `markReadingComplete` never throws (it is a total function of the
response); for a delivered response it returns `true` exactly when the body
text contains the literal substring `"Completed"`, with the HTTP status
playing no role in the result; a network exception (`none`) yields
`false`. -/
theorem markReadingComplete_body_marker :
    (∀ status body,
      markReadingComplete (some { status := status, body := body }) = true ↔
        ∃ pre post, body.toList = pre ++ "Completed".toList ++ post) ∧
    (∀ s₁ s₂ body,
      markReadingComplete (some { status := s₁, body := body }) =
        markReadingComplete (some { status := s₂, body := body })) ∧
    markReadingComplete none = false := by
  refine ⟨fun status body => ?_, fun s₁ s₂ body => rfl, rfl⟩
  simpa [markReadingComplete, strContains] using
    strContainsAux_iff "Completed".toList body.toList

/-- C4: for a skip-eligible video (`can_skip = true`) the watcher issues the
end event as its only action: no play call, no progress call, and no settle
delay. -/
theorem watchItem_skip_single_call (m : ItemMetadata) (item : VideoItem)
    (net : VideoNet) (h : m.can_skip = true) :
    (watchItem m item net).1 = [WatchEvent.endCall] := by
  simp [watchItem, h, endItem]

theorem watchItem_skip_single_call_witness :
    ({ can_skip := true, tracking_id := "t" } : ItemMetadata).can_skip = true ∧
    (watchItem { can_skip := true, tracking_id := "t" }
      { id := "i", name := "n", timeCommitment := 120000 }
      { playStatus := 200, progressStatus := 204, endStatus := 200 }).1 =
      [WatchEvent.endCall] :=
  ⟨rfl, watchItem_skip_single_call _ _ _ rfl⟩

/-- C5: for a non-skip-eligible video the watcher performs, strictly in
order, the play event (any status other than 200 throws and aborts), the
progress update carrying `viewedUpTo = item.timeCommitment` (any status
other than 204 throws and aborts), the fixed 3000 ms settle delay, and the
end event (any status other than 200 throws); a failure at any step means no
later call is issued. -/
theorem watchItem_full_sequence (m : ItemMetadata) (item : VideoItem)
    (net : VideoNet) (h : m.can_skip = false) :
    (net.playStatus ≠ 200 →
      watchItem m item net =
        ([WatchEvent.playCall], some (WatchError.startFailed net.playStatus))) ∧
    (net.playStatus = 200 → net.progressStatus ≠ 204 →
      watchItem m item net =
        ([WatchEvent.playCall, WatchEvent.progressCall item.timeCommitment],
          some (WatchError.progressFailed net.progressStatus))) ∧
    (net.playStatus = 200 → net.progressStatus = 204 → net.endStatus ≠ 200 →
      watchItem m item net =
        ([WatchEvent.playCall, WatchEvent.progressCall item.timeCommitment,
          WatchEvent.wait 3000, WatchEvent.endCall],
          some (WatchError.endFailed net.endStatus))) ∧
    (net.playStatus = 200 → net.progressStatus = 204 → net.endStatus = 200 →
      watchItem m item net =
        ([WatchEvent.playCall, WatchEvent.progressCall item.timeCommitment,
          WatchEvent.wait 3000, WatchEvent.endCall], none)) := by
  refine ⟨fun h1 => ?_, fun h1 h2 => ?_, fun h1 h2 h3 => ?_, fun h1 h2 h3 => ?_⟩ <;>
    simp [watchItem, h, seqStep, startItem, updateProgress, endItem,
      DELAYS_AFTER_PROGRESS_UPDATE, h1, *]

theorem watchItem_full_sequence_witness :
    ({ can_skip := false, tracking_id := "t" } : ItemMetadata).can_skip = false ∧
    watchItem { can_skip := false, tracking_id := "t" }
      { id := "i", name := "n", timeCommitment := 120000 }
      { playStatus := 200, progressStatus := 204, endStatus := 200 } =
      ([WatchEvent.playCall, WatchEvent.progressCall 120000,
        WatchEvent.wait 3000, WatchEvent.endCall], none) :=
  ⟨rfl, (watchItem_full_sequence _ _ _ rfl).2.2.2 rfl rfl rfl⟩

/-- C6 counterexample: the claim asserts that every classifier entry point
used for batch processing implements the taxonomy that maps `gradedLti` to
programming — but the classifier inside `coursera-api.ts getModuleData`
(the one the background service worker imports for module batches)
classifies the type-name `gradedLti` as `unknown`, while the storage
classifier and the claimed taxonomy map it to `programming`. -/
theorem classifier_taxonomy_counterexample :
    courseraApiDetectItemType "gradedLti" = ItemType.unknown ∧
    specClassify "gradedLti" "" = ItemType.programming ∧
    detectItemType "gradedLti" "" = ItemType.programming := by
  refine ⟨by decide, by decide, by decide⟩

/-- C6 (amended): the storage classifier `detectItemType` implements exactly
the claimed taxonomy with the path fallback (it agrees with the
spec-transcribed mapping on every input), but the second batch entry point —
the inline classifier of `coursera-api.ts getModuleData` — does not
implement the same mapping: it is substring matching with no exact-taxonomy
entries and no path fallback, and disagrees with the claimed mapping on
`gradedLti`. -/
theorem detectItemType_matches_taxonomy :
    (∀ typeName resourcePath,
      detectItemType typeName resourcePath = specClassify typeName resourcePath) ∧
    courseraApiDetectItemType "gradedLti" ≠ specClassify "gradedLti" "" :=
  ⟨fun _ _ => rfl, by decide⟩

/-- C8: requesting module number 0, a negative module number, or a number
greater than the course's module/week count makes both module-data entry
points (`storage.ts getModuleData` and `coursera-api.ts getModuleData`)
return `null`; as total Lean functions they cannot throw. -/
theorem getModuleData_out_of_bounds (env : StorageEnv)
    (courseData : Option ApiCourseData) (n : Int)
    (h1 : n ≤ 0 ∨ n > ((env.weeks.getD []).length : Int))
    (h2 : n ≤ 0 ∨ n > (((courseData.getD ⟨[], [], []⟩).modules).length : Int)) :
    storageGetModuleData env n = none ∧
    courseraApiGetModuleData courseData n = none := by
  constructor
  · obtain ⟨u, c, w⟩ := env
    cases u with
    | none => rfl
    | some u =>
      cases c with
      | none => rfl
      | some c =>
        cases w with
        | none => rfl
        | some weeks =>
          have hcond : n - 1 < 0 ∨ n - 1 ≥ (weeks.length : Int) := by
            simp only [Option.getD_some] at h1
            omega
          simp only [storageGetModuleData]
          rw [dif_pos hcond]
  · cases courseData with
    | none => rfl
    | some data =>
      have hcond : n - 1 < 0 ∨ n - 1 ≥ (data.modules.length : Int) := by
        simp only [Option.getD_some] at h2
        omega
      simp only [courseraApiGetModuleData]
      rw [dif_pos hcond]

theorem getModuleData_out_of_bounds_witness :
    ((0 : Int) ≤ 0 ∨ (0 : Int) >
      ((({ userId := some "u", courseId := some "c", weeks := some [] } :
        StorageEnv).weeks.getD []).length : Int)) ∧
    storageGetModuleData
      { userId := some "u", courseId := some "c", weeks := some [] } 0 = none ∧
    courseraApiGetModuleData (some { modules := [], lessons := [], items := [] })
      0 = none := by
  refine ⟨Or.inl le_rfl, ?_⟩
  have h := getModuleData_out_of_bounds
    { userId := some "u", courseId := some "c", weeks := some [] }
    (some { modules := [], lessons := [], items := [] }) 0
    (Or.inl le_rfl) (Or.inl le_rfl)
  exact h

/-- C3: when a programming item is marked passed against a fetched grade
document whose item-grade entries are all for other items, the PUT payload
contains all the original entries plus exactly one new entry for the target
item with `isPassed = true` and `grade = 1.0`, and the payload's
`overallGrade` equals the number of passed entries divided by the total
number of item-grade entries of the payload. -/
theorem markItemAsPassed_grade_merge {α β γ δ : Type} (courseId itemId : String)
    (uid : Int) (grades : CourseViewGrades α β γ δ)
    (h : ∀ g ∈ grades.linked.itemGrades.getD [], g.itemId ≠ itemId) :
    (markItemAsPassedPayload courseId itemId uid grades).linked.itemGrades =
      some (grades.linked.itemGrades.getD [] ++ [newItemGrade courseId itemId uid]) ∧
    (newItemGrade courseId itemId uid).overallOutcome =
      { isPassed := true, grade := 1 } ∧
    ((markItemAsPassedPayload courseId itemId uid grades).linked.itemGrades.getD
        []).length = (grades.linked.itemGrades.getD []).length + 1 ∧
    ∃ e, (markItemAsPassedPayload courseId itemId uid grades).elements = [e] ∧
      e.overallGrade =
        ((((grades.linked.itemGrades.getD [] ++
            [newItemGrade courseId itemId uid]).filter
              (fun g => g.overallOutcome.isPassed)).length : ℚ)) /
          (((grades.linked.itemGrades.getD []).length + 1 : ℚ)) := by
  have hfind : (grades.linked.itemGrades.getD []).find?
      (fun ig => ig.itemId = itemId) = none := by
    rw [List.find?_eq_none]
    intro g hg
    simpa using h g hg
  have hmerge : mergedItemGrades courseId itemId uid
      (grades.linked.itemGrades.getD []) =
      grades.linked.itemGrades.getD [] ++ [newItemGrade courseId itemId uid] := by
    rw [mergedItemGrades, hfind]
  set gs := grades.linked.itemGrades.getD [] with hgs
  have hlen : (gs ++ [newItemGrade courseId itemId uid]).length = gs.length + 1 := by
    simp
  refine ⟨?_, rfl, ?_, ?_⟩
  · simp only [markItemAsPassedPayload, ← hgs, hmerge]
  · simp only [markItemAsPassedPayload, ← hgs, hmerge, Option.getD_some, hlen]
  · simp only [markItemAsPassedPayload, ← hgs, hmerge, hlen]
    refine ⟨_, rfl, ?_⟩
    have hpos : gs.length + 1 > 0 := Nat.succ_pos _
    simp only [if_pos hpos]
    push_cast
    ring

theorem markItemAsPassed_grade_merge_witness :
    (∀ g ∈ (({ elements := []
               linked :=
                { itemGrades := some
                    [{ itemId := "a"
                       overallOutcome := { isPassed := true, grade := 1 }
                       id := "1~c~a", userId := 1, courseId := "c" },
                     { itemId := "b"
                       overallOutcome := { isPassed := false, grade := 0 }
                       id := "1~c~b", userId := 1, courseId := "c" },
                     { itemId := "d"
                       overallOutcome := { isPassed := false, grade := 0 }
                       id := "1~c~d", userId := 1, courseId := "c" }]
                  gradedAssignmentGroupGrades := none
                  passableItemGroupGrades := none
                  trackAttainments := none
                  itemOutcomeOverrides := none } } :
        CourseViewGrades Unit Unit Unit Unit).linked.itemGrades.getD []),
        g.itemId ≠ "target") ∧
    ((markItemAsPassedPayload "c" "target" 1
      ({ elements := []
         linked :=
          { itemGrades := some
              [{ itemId := "a"
                 overallOutcome := { isPassed := true, grade := 1 }
                 id := "1~c~a", userId := 1, courseId := "c" },
               { itemId := "b"
                 overallOutcome := { isPassed := false, grade := 0 }
                 id := "1~c~b", userId := 1, courseId := "c" },
               { itemId := "d"
                 overallOutcome := { isPassed := false, grade := 0 }
                 id := "1~c~d", userId := 1, courseId := "c" }]
            gradedAssignmentGroupGrades := none
            passableItemGroupGrades := none
            trackAttainments := none
            itemOutcomeOverrides := none } } :
        CourseViewGrades Unit Unit Unit Unit)).linked.itemGrades.getD []).length
      = 4 := by
  refine ⟨by decide, ?_⟩
  have h := markItemAsPassed_grade_merge (α := Unit) (β := Unit) (γ := Unit)
    (δ := Unit) "c" "target" 1
    { elements := []
      linked :=
        { itemGrades := some
            [{ itemId := "a"
               overallOutcome := { isPassed := true, grade := 1 }
               id := "1~c~a", userId := 1, courseId := "c" },
             { itemId := "b"
               overallOutcome := { isPassed := false, grade := 0 }
               id := "1~c~b", userId := 1, courseId := "c" },
             { itemId := "d"
               overallOutcome := { isPassed := false, grade := 0 }
               id := "1~c~d", userId := 1, courseId := "c" }]
          gradedAssignmentGroupGrades := none
          passableItemGroupGrades := none
          trackAttainments := none
          itemOutcomeOverrides := none } }
    (by decide)
  rw [h.2.2.1]
  rfl

/-- C10: the four linked grade collections other than the item grades —
graded-assignment-group grades, passable-item-group grades, track
attainments and item-outcome overrides — appear in the PUT payload exactly
as fetched from the current course grade document, with an empty list
substituted only when the fetched document lacks the collection
(`|| []`). -/
theorem markItemAsPassed_frame {α β γ δ : Type} (courseId itemId : String)
    (uid : Int) (grades : CourseViewGrades α β γ δ) :
    (markItemAsPassedPayload courseId itemId uid grades).linked.gradedAssignmentGroupGrades =
      some (grades.linked.gradedAssignmentGroupGrades.getD []) ∧
    (markItemAsPassedPayload courseId itemId uid grades).linked.passableItemGroupGrades =
      some (grades.linked.passableItemGroupGrades.getD []) ∧
    (markItemAsPassedPayload courseId itemId uid grades).linked.trackAttainments =
      some (grades.linked.trackAttainments.getD []) ∧
    (markItemAsPassedPayload courseId itemId uid grades).linked.itemOutcomeOverrides =
      some (grades.linked.itemOutcomeOverrides.getD []) :=
  ⟨rfl, rfl, rfl, rfl⟩

/-- C2: for a module batch whose user-id resolution succeeded, and for every
completion order of the three concurrent groups, the batch terminates with
status `completed` (item failures are caught inside their own promise and
never re-thrown, so they neither cancel nor block siblings and never turn the
batch status into `error`); the final completed count is exactly the number
of dispatched (video, reading, programming) items whose handler succeeded,
excluding failed items; the terminal message reports that count over the
module's full item total (which still includes the failed and undispatched
items); batch status is `error` only for the pre-flight user-id failure.
The all-modules batch behaves the same way: it completes with the total
success count across its modules, and errors only on the pre-flight user-id
failure. -/
theorem batch_fault_isolation (u : String) (md : ModuleData)
    (ok : ModuleItemSummary → Bool) (vO rO pO : List ModuleItemSummary)
    (hv : vO.Perm (md.items.filter (fun i => i.type = ItemType.video)))
    (hr : rO.Perm (md.items.filter (fun i => i.type = ItemType.reading)))
    (hp : pO.Perm (md.items.filter (fun i => i.type = ItemType.programming))) :
    (processModuleItems (some u) md ok vO rO pO).finalStatus =
      TaskStatus.completed ∧
    (processModuleItems (some u) md ok vO rO pO).completedCount =
      (((md.items.filter (fun i => i.type = ItemType.video)) ++
        (md.items.filter (fun i => i.type = ItemType.reading)) ++
        (md.items.filter (fun i => i.type = ItemType.programming))).filter
          ok).length ∧
    (processModuleItems (some u) md ok vO rO pO).finalMessage =
      "Module completed! Processed " ++
        toString (processModuleItems (some u) md ok vO rO pO).completedCount ++
        "/" ++ toString md.items.length ++ " items" ∧
    (processModuleItems none md ok vO rO pO).finalStatus = TaskStatus.error ∧
    (∀ (mods : List ModuleData) (T : Nat),
      (processAllModules (some u) mods T ok).finalStatus =
        TaskStatus.completed ∧
      (processAllModules none mods T ok).finalStatus = TaskStatus.error ∧
      (processAllModules (some u) mods T ok).completedCount =
        (mods.map (moduleDispatchSuccesses ok)).sum) := by
  refine ⟨rfl, ?_, rfl, rfl, fun mods T => ⟨rfl, rfl, ?_⟩⟩
  case refine_2 =>
    show (processModulesFrom ok T mods.length 0 mods
      { completedCount := 0, updates := [] }).completedCount = _
    rw [processModulesFrom_count]
    simp
  have hvl : (vO.filter ok).length =
      ((md.items.filter (fun i => i.type = ItemType.video)).filter ok).length :=
    (hv.filter ok).length_eq
  have hrl : (rO.filter ok).length =
      ((md.items.filter (fun i => i.type = ItemType.reading)).filter ok).length :=
    (hr.filter ok).length_eq
  have hpl : (pO.filter ok).length =
      ((md.items.filter (fun i => i.type = ItemType.programming)).filter ok).length :=
    (hp.filter ok).length_eq
  have hv0 : (md.items.filter (fun i => i.type = ItemType.video)).length = 0 →
      (vO.filter ok).length = 0 := by
    intro h
    rw [hvl]
    have := List.length_filter_le ok (md.items.filter (fun i => i.type = ItemType.video))
    omega
  have hr0 : (md.items.filter (fun i => i.type = ItemType.reading)).length = 0 →
      (rO.filter ok).length = 0 := by
    intro h
    rw [hrl]
    have := List.length_filter_le ok (md.items.filter (fun i => i.type = ItemType.reading))
    omega
  have hp0 : (md.items.filter (fun i => i.type = ItemType.programming)).length = 0 →
      (pO.filter ok).length = 0 := by
    intro h
    rw [hpl]
    have := List.length_filter_le ok (md.items.filter (fun i => i.type = ItemType.programming))
    omega
  simp only [processModuleItems]
  rw [runGroupStage_count _ _ _ _ _ _ _ hp0, runGroupStage_count _ _ _ _ _ _ _ hr0,
    runGroupStage_count _ _ _ _ _ _ _ hv0]
  simp only [List.filter_append, List.length_append]
  rw [hvl, hrl, hpl]
  omega

/-! ### Concrete batch fixtures -/

/-- A concrete video item (for witnesses and counterexamples). -/
def sampleVideoItem (n : Nat) : ModuleItemSummary :=
  { id := "v" ++ toString n, name := "Video " ++ toString n, slug := ""
    type := .video, timeCommitment := 60000 }

/-- A concrete reading item. -/
def sampleReadingItem (n : Nat) : ModuleItemSummary :=
  { id := "r" ++ toString n, name := "Reading " ++ toString n, slug := ""
    type := .reading, timeCommitment := 0 }

/-- A module of five videos (the spec's fault-isolation scenario). -/
def fiveVideoModule : ModuleData :=
  { moduleId := "m1", name := "Module 1", slug := ""
    items := [sampleVideoItem 1, sampleVideoItem 2, sampleVideoItem 3,
      sampleVideoItem 4, sampleVideoItem 5]
    counts := { quiz := 0, video := 5, reading := 0, programming := 0
                peerReview := 0, total := 5 } }

/-- Handler oracle failing exactly on the third video. -/
def failThird (i : ModuleItemSummary) : Bool :=
  !(i.id = "v3")

/-- A module of one video and ten readings (total 11 items), on which the
fixed 10 % video announcement exceeds the first computed percentage. -/
def elevenItemModule : ModuleData :=
  { moduleId := "m2", name := "Module 2", slug := ""
    items := sampleVideoItem 1 ::
      [sampleReadingItem 1, sampleReadingItem 2, sampleReadingItem 3,
       sampleReadingItem 4, sampleReadingItem 5, sampleReadingItem 6,
       sampleReadingItem 7, sampleReadingItem 8, sampleReadingItem 9,
       sampleReadingItem 10]
    counts := { quiz := 0, video := 1, reading := 10, programming := 0
                peerReview := 0, total := 11 } }

theorem batch_fault_isolation_witness :
    (processModuleItems (some "u") fiveVideoModule failThird
      (fiveVideoModule.items.filter (fun i => i.type = ItemType.video))
      (fiveVideoModule.items.filter (fun i => i.type = ItemType.reading))
      (fiveVideoModule.items.filter (fun i => i.type = ItemType.programming))).finalStatus =
      TaskStatus.completed ∧
    (processModuleItems (some "u") fiveVideoModule failThird
      (fiveVideoModule.items.filter (fun i => i.type = ItemType.video))
      (fiveVideoModule.items.filter (fun i => i.type = ItemType.reading))
      (fiveVideoModule.items.filter (fun i => i.type = ItemType.programming))).completedCount =
      4 := by
  have h := batch_fault_isolation "u" fiveVideoModule failThird
    (fiveVideoModule.items.filter (fun i => i.type = ItemType.video))
    (fiveVideoModule.items.filter (fun i => i.type = ItemType.reading))
    (fiveVideoModule.items.filter (fun i => i.type = ItemType.programming))
    (List.Perm.refl _) (List.Perm.refl _) (List.Perm.refl _)
  refine ⟨h.1, ?_⟩
  rw [h.2.1]
  decide

/-- C7 counterexample: on a module of one video followed by ten readings,
with every handler succeeding, the recorded progress sequence is
`[10, 9, 9, 18, ...]` — the fixed 10 % announcement of the video phase is
followed by `round(1/11*100) = 9`, so the progress values within this single
task are not monotonically non-decreasing (and no retry reset is
involved). -/
theorem progress_monotone_counterexample :
    nonDecreasingNat
      ((processModuleItems (some "u") elevenItemModule (fun _ => true)
        (elevenItemModule.items.filter (fun i => i.type = ItemType.video))
        (elevenItemModule.items.filter (fun i => i.type = ItemType.reading))
        (elevenItemModule.items.filter (fun i => i.type = ItemType.programming))).updates.map
          ProgressUpdate.progress) = false ∧
    ((processModuleItems (some "u") elevenItemModule (fun _ => true)
      (elevenItemModule.items.filter (fun i => i.type = ItemType.video))
      (elevenItemModule.items.filter (fun i => i.type = ItemType.reading))
      (elevenItemModule.items.filter (fun i => i.type = ItemType.programming))).updates.map
        ProgressUpdate.progress) =
      [10, 9, 9, 18, 27, 36, 45, 55, 64, 73, 82, 91, 100] := by
  constructor
  · rfl
  · rfl

/-- C7 (amended): within one module-skip task, every progress update other
than the fixed initial `10` announcement of a non-empty video phase carries
the percentage of the shared completed counter, and these values are
monotonically non-decreasing for every completion order and every outcome of
the item handlers; only the leading fixed `10` of the video announcement can
exceed its successors. -/
theorem progress_ratio_monotone (userId : Option String) (md : ModuleData)
    (ok : ModuleItemSummary → Bool) (vO rO pO : List ModuleItemSummary) :
    nonDecreasingNat
      (((processModuleItems userId md ok vO rO pO).updates.map
          ProgressUpdate.progress).drop
        (if 0 < (md.items.filter (fun i => i.type = ItemType.video)).length
          then 1 else 0)) = true := by
  cases userId with
  | none =>
    simp [processModuleItems, nonDecreasingNat]
  | some u =>
    simp only [processModuleItems]
    exact stages_chain md.items.length ok _ _ _ vO rO pO _ _ _ _ _ _ rfl rfl rfl

/-- C1 counterexample: the claim asserts that every batch-start path rejects
a second start under a key whose task is still non-terminal.  But after a
first module-skip start (whose task is `running`, hence non-terminal), a
second module-skip start with the same key is accepted — `handleStartModuleSkip`
performs no already-running check. -/
theorem module_skip_duplicate_start_accepted :
    ((taskMapGet (handleStartModuleSkip [] "c1" "slug" 1
        (some fiveVideoModule)).1 "module-slug-1").map ActiveTask.status =
      some TaskStatus.running) ∧
    (handleStartModuleSkip (handleStartModuleSkip [] "c1" "slug" 1
        (some fiveVideoModule)).1 "c1" "slug" 1
        (some fiveVideoModule)).2.success = true := by
  exact ⟨rfl, rfl⟩

/-- C1 (amended): the solver-start and all-modules-skip paths reject a start
request whose key is already present in the task map (leaving the map
unchanged), and every start path mutates the map only through `Map.set`, so
the map never holds two entries under one key; the module-skip path,
however, performs no already-running check: it accepts the request even when
the key is present (replacing the existing entry). -/
theorem task_admission_control (m : TaskMap)
    (courseId itemId courseSlug : String) (n : Int) (md : ModuleData)
    (mods : List ModuleData) (apiKeyConfigured authenticated : Bool)
    (hkeys : (m.map Prod.fst).Nodup) :
    (taskMapHas m (courseId ++ "-" ++ itemId) = true →
      handleStartSolver m courseId itemId apiKeyConfigured authenticated =
        (m, { success := false
              errorMsg := some "Solver already running for this item"
              taskKey := none })) ∧
    (taskMapHas m ("all-modules-" ++ courseSlug) = true →
      handleStartAllModulesSkip m courseId courseSlug (some mods) =
        (m, { success := false
              errorMsg := some "All modules skip already running"
              taskKey := none })) ∧
    (handleStartModuleSkip m courseId courseSlug n (some md)).2.success = true ∧
    (((handleStartSolver m courseId itemId apiKeyConfigured
        authenticated).1.map Prod.fst).Nodup ∧
      ((handleStartAllModulesSkip m courseId courseSlug
        (some mods)).1.map Prod.fst).Nodup ∧
      ((handleStartModuleSkip m courseId courseSlug n
        (some md)).1.map Prod.fst).Nodup) := by
  refine ⟨fun h => ?_, fun h => ?_, rfl, ?_, ?_, ?_⟩
  · simp [handleStartSolver, h]
  · simp [handleStartAllModulesSkip, h]
  · unfold handleStartSolver
    dsimp only
    split_ifs <;> first
      | exact hkeys
      | exact taskMapSet_keys_nodup _ _ m hkeys
  · unfold handleStartAllModulesSkip
    dsimp only
    split_ifs <;> first
      | exact hkeys
      | exact taskMapSet_keys_nodup _ _ m hkeys
  · exact taskMapSet_keys_nodup _ _ m hkeys

theorem task_admission_control_witness :
    taskMapHas [("c-i",
      ({ type := "solver", courseId := "c", itemId := "i"
         status := TaskStatus.running, progress := 0
         message := "Starting solver...", moduleDataTotalItems := none } :
        ActiveTask))] ("c" ++ "-" ++ "i") = true ∧
    ((([("c-i",
      ({ type := "solver", courseId := "c", itemId := "i"
         status := TaskStatus.running, progress := 0
         message := "Starting solver...", moduleDataTotalItems := none } :
        ActiveTask))] : TaskMap).map Prod.fst).Nodup) ∧
    handleStartSolver [("c-i",
      ({ type := "solver", courseId := "c", itemId := "i"
         status := TaskStatus.running, progress := 0
         message := "Starting solver...", moduleDataTotalItems := none } :
        ActiveTask))] "c" "i" true true =
      ([("c-i",
        ({ type := "solver", courseId := "c", itemId := "i"
           status := TaskStatus.running, progress := 0
           message := "Starting solver...", moduleDataTotalItems := none } :
          ActiveTask))],
        { success := false
          errorMsg := some "Solver already running for this item"
          taskKey := none }) := by
  refine ⟨by decide, by decide, ?_⟩
  exact (task_admission_control
    [("c-i",
      ({ type := "solver", courseId := "c", itemId := "i"
         status := TaskStatus.running, progress := 0
         message := "Starting solver...", moduleDataTotalItems := none } :
        ActiveTask))] "c" "i" "slug" 1 fiveVideoModule [] true true
    (by decide)).1 (by decide)

end CourseraSkipper
